import Mathlib

/-!
Verification development for `src/stock_app.py` (a Streamlit stock-search app).

The Python program is shallowly embedded:
  - Python strings are lists of Unicode codepoints (`PyStr := List Nat`);
    the string builtins used by the program (`strip`, `isalnum`, `upper`,
    `len`) are embedded over the ASCII ranges they act on.
  - pandas DataFrames are an index (list of dates) plus named columns.
  - Every external API call (yahooquery `search`, `yfinance.Ticker.history`,
    `Ticker.info`, yahooquery `summary_detail`) is a parameter of the
    embedded function: an environment value of type `Except String _`,
    where `.error msg` models the call raising an exception with text
    `msg`, exactly the cases the Python `try/except` blocks react to.
  - The Streamlit presenter (the top-level script body) is embedded as a
    pure function from the environment and the query to the list of UI
    events it emits (messages, the chart, the data preview).
-/

namespace StockApp

/-- A Python string, as its list of Unicode codepoints. -/
abbrev PyStr := List Nat

/-- Codepoint-level embedding of Python `str.upper` on the ASCII letters
(codepoints 97..122 map down by 32, everything else is unchanged). -/
def upCode (c : Nat) : Nat :=
  if 97 ≤ c ∧ c ≤ 122 then c - 32 else c

/-- Embedding of Python `str.upper`. -/
def pyUpper (s : PyStr) : PyStr := s.map upCode

/-- ASCII whitespace codepoints removed by Python `str.strip`:
tab, LF, VT, FF, CR, space. -/
def isSpaceCode (c : Nat) : Bool :=
  c = 9 || c = 10 || c = 11 || c = 12 || c = 13 || c = 32

/-- Embedding of Python `str.strip`: drop whitespace from both ends. -/
def pyStrip (s : PyStr) : PyStr :=
  ((s.dropWhile isSpaceCode).reverse.dropWhile isSpaceCode).reverse

/-- ASCII alphanumeric codepoints: digits 48..57, uppercase 65..90,
lowercase 97..122. -/
def isAlnumCode (c : Nat) : Bool :=
  (48 ≤ c && c ≤ 57) || (65 ≤ c && c ≤ 90) || (97 ≤ c && c ≤ 122)

/-- Embedding of Python `str.isalnum`: non-empty and all characters
alphanumeric. -/
def pyIsAlnum (s : PyStr) : Bool :=
  !s.isEmpty && s.all isAlnumCode

/-- Shape of the yahooquery `search(q)` response, as far as
`name_to_ticker` inspects it (stock_app.py lines 23-26):
  - `notDict`: the response is not a dict, so the guard fails;
  - `noQuotes`: a dict without a "quotes" key (or the later membership
    test fails);
  - `quotes cs`: a dict whose "quotes" key holds a candidate list; each
    candidate either has a string "symbol" field (`some s`) or accessing
    `["symbol"].upper()` raises (`none`, covering a missing key or a
    non-string value). -/
inductive SearchRes where
  | notDict
  | noQuotes
  | quotes (cands : List (Option PyStr))

/-- Embedding of `name_to_ticker` (stock_app.py lines 14-30).
`searchApi` is the external `yahooquery.search` call: `.error` models the
call raising, which the `except Exception` clause turns into `None`. -/
def name_to_ticker (searchApi : PyStr → Except String SearchRes)
    (query : PyStr) : Option PyStr :=
  let q := pyStrip query
  if q = [] then
    none
  else if q.length ≤ 5 ∧ pyIsAlnum q = true then
    some (pyUpper q)
  else
    match searchApi q with
    | .error _ => none
    | .ok .notDict => none
    | .ok .noQuotes => none
    | .ok (.quotes []) => none
    | .ok (.quotes (none :: _)) => none
    | .ok (.quotes (some s :: _)) => some (pyUpper s)

/-- The search path failed upstream: the call raised, the response was
not a dict, had no quotes list, the candidate list was empty, or the top
candidate had no usable symbol field. -/
def searchFailed : Except String SearchRes → Bool
  | .error _ => true
  | .ok .notDict => true
  | .ok .noQuotes => true
  | .ok (.quotes []) => true
  | .ok (.quotes (none :: _)) => true
  | .ok (.quotes (some _ :: _)) => false

/-! ## The data fetcher: `get_price_and_forward_eps` -/

/-- A calendar date (pandas Timestamp at day granularity). -/
structure Date where
  year : Nat
  month : Nat
  day : Nat
deriving DecidableEq, Repr

/-- A pandas DataFrame as far as the program uses one: a date index and
named columns of numeric values (prices scaled to integers). -/
structure DataFrame where
  index : List Date
  cols : List (String × List Int)
deriving DecidableEq, Repr

/-- pandas `df.empty`: true when either axis has length zero. -/
def DataFrame.isEmpty (df : DataFrame) : Bool :=
  df.index.isEmpty || df.cols.isEmpty

/-- pandas `df.columns`. -/
def colNames (df : DataFrame) : List String := df.cols.map Prod.fst

/-- Column access `df[n]`: the first column named `n` (empty if absent;
the program only reads columns it has checked for or just created). -/
def getCol (df : DataFrame) (n : String) : List Int :=
  ((df.cols.find? (fun p => p.1 == n)).map Prod.snd).getD []

/-- Column assignment on the column list: pandas `df[n] = v` overwrites
an existing column named `n`, otherwise appends a new one at the end. -/
def setColL (cs : List (String × List Int)) (n : String) (v : List Int) :
    List (String × List Int) :=
  if cs.any (fun p => p.1 == n) then
    cs.map (fun p => if p.1 == n then (n, v) else p)
  else
    cs ++ [(n, v)]

/-- pandas `df[n] = v`. -/
def setCol (df : DataFrame) (n : String) (v : List Int) : DataFrame :=
  ⟨df.index, setColL df.cols n v⟩

/-- Days in a month, Gregorian calendar (used by the month-end stamp). -/
def daysInMonth (y m : Nat) : Nat :=
  if m = 2 then
    if (y % 4 = 0 ∧ y % 100 ≠ 0) ∨ y % 400 = 0 then 29 else 28
  else if m = 4 ∨ m = 6 ∨ m = 9 ∨ m = 11 then 30
  else 31

/-- pandas `to_period(M).to_timestamp(M)` on one date: the last day of
that date's month. -/
def monthEnd (d : Date) : Date :=
  ⟨d.year, d.month, daysInMonth d.year d.month⟩

/-- stock_app.py lines 63-66: restamp the whole index to month ends. -/
def toMonthEnd (df : DataFrame) : DataFrame :=
  ⟨df.index.map monthEnd, df.cols⟩

/-- The two `t.history` requests the fetcher can issue, both at a fixed
interval string: `window5y i` is the start/end request over the ~5-year
lookback (lines 39-40, 45-48), `maxPeriod i` is `period="max"`
(line 51). -/
inductive HistoryReq where
  | window5y (interval : String)
  | maxPeriod (interval : String)
deriving DecidableEq

/-- Shape of `t.info` as far as the fetcher inspects it (lines 71-73):
not a dict, or a dict whose `forwardEps` entry is present or not. -/
inductive InfoRes where
  | notDict
  | dict (forwardEps : Option Int)

/-- Shape of yahooquery `summary_detail` (lines 82-88): a dict keyed by
ticker, a non-dict object that still has a `get` method (the
`hasattr(sd, "get")` branch), or anything else. -/
inductive SDRes where
  | dict (m : List (PyStr × List (String × Int)))
  | getable (m : List (PyStr × List (String × Int)))
  | other

/-- Everything the market-data APIs can answer about one ticker symbol:
the environment of `get_price_and_forward_eps`. Each `.error msg` models
that call raising an exception whose text is `msg`. -/
structure TickerData where
  history : HistoryReq → Except String (Option DataFrame)
  info : Except String InfoRes
  summaryDetail : Except String SDRes

/-- stock_app.py lines 45-51: the primary ~5-year monthly price request,
falling back to `period="max"` at the same `"1mo"` interval when the
primary result is `None` or empty. -/
def selectPriceFrame (td : TickerData) : Except String (Option DataFrame) :=
  match td.history (.window5y "1mo") with
  | .error e => .error e
  | .ok op =>
    if (match op with | none => true | some df => df.isEmpty) then
      td.history (.maxPeriod "1mo")
    else
      .ok op

/-- stock_app.py lines 54-60: normalize the price frame to carry its
price data in a column named "Price". A `None` frame raises when its
`.columns` is read; a frame with no columns at all makes `iloc[:, 0]`
raise. Both exceptions reach the outer `except` clause. -/
def normalizePrice (op : Option DataFrame) : Except String DataFrame :=
  match op with
  | none => .error "AttributeError: NoneType object has no attribute columns"
  | some df =>
    if "Close" ∈ colNames df then
      .ok ⟨df.index, [("Price", getCol df "Close")]⟩
    else if "Adj Close" ∈ colNames df then
      .ok ⟨df.index, [("Price", getCol df "Adj Close")]⟩
    else
      match df.cols with
      | [] => .error "IndexError: single positional indexer is out-of-bounds"
      | c :: _ => .ok (setCol df "Price" c.2)

/-- Dict lookup keyed by a ticker string: `sd.get(ticker, {})`. -/
def lookupTicker (k : PyStr) (m : List (PyStr × List (String × Int))) :
    List (String × Int) :=
  ((m.find? (fun p => p.1 == k)).map Prod.snd).getD []

/-- Dict lookup `d.get("forwardEps", None)`. -/
def lookupEps (d : List (String × Int)) : Option Int :=
  (d.find? (fun p => p.1 == "forwardEps")).map Prod.snd

/-- stock_app.py lines 69-75: first forward-EPS attempt, from `t.info`.
A raising call or a non-dict response leaves the value `None`. -/
def infoEps (td : TickerData) : Option Int :=
  match td.info with
  | .error _ => none
  | .ok .notDict => none
  | .ok (.dict f) => f

/-- stock_app.py lines 79-90: second forward-EPS attempt, from
yahooquery `summary_detail`, keyed by the (already uppercased) ticker.
A raising call, or a response that is neither a dict nor `get`-able,
leaves the value `None`. -/
def sdEps (td : TickerData) (ticker : PyStr) : Option Int :=
  match td.summaryDetail with
  | .error _ => none
  | .ok (.dict m) => lookupEps (lookupTicker ticker m)
  | .ok (.getable m) => lookupEps (lookupTicker ticker m)
  | .ok .other => none

/-- stock_app.py lines 68-90: the forward-EPS value — the info attempt,
and only if it produced `None`, the summary-detail attempt. -/
def fetchForwardEps (td : TickerData) (ticker : PyStr) : Option Int :=
  match infoEps td with
  | some v => some v
  | none => sdEps td ticker

/-- stock_app.py line 95: the outer `except` re-raises every exception as
`RuntimeError(f"데이터 로드 중 예외: {e}\n{traceback.format_exc()}")`,
with the original exception text embedded. The traceback is modelled by
a placeholder. -/
def rtWrap (e : String) : String :=
  "데이터 로드 중 예외: " ++ e ++ "\n<traceback>"

/-- Embedding of `get_price_and_forward_eps` (stock_app.py lines 33-95).
`world` maps a ticker symbol to its API responses; the function consults
it only at the uppercased ticker (line 38). The result is the
(price frame, forward EPS) pair, or the wrapped `RuntimeError`. -/
def get_price_and_forward_eps (world : PyStr → TickerData) (ticker : PyStr) :
    Except String (DataFrame × Option Int) :=
  let tk := pyUpper ticker
  let td := world tk
  match selectPriceFrame td with
  | .error e => .error (rtWrap e)
  | .ok op =>
    match normalizePrice op with
    | .error e => .error (rtWrap e)
    | .ok df => .ok (toMonthEnd df, fetchForwardEps td tk)

/-! ## The presenter: the top-level Streamlit script body -/

/-- The dual-axis figure built at stock_app.py lines 139-159: the price
series on the left axis, and — when forward EPS is present — a second
series on the right (twinx) axis with a combined legend. -/
structure ChartSpec where
  priceX : List Date
  priceY : List Int
  epsSeries : Option (List Date × List Int)
  combinedLegend : Bool
deriving DecidableEq, Repr

/-- One user-visible output of the presenter, in emission order. -/
inductive UIEvent where
  | infoMsg (s : String)
  | errorMsg (s : String)
  | codeBlock (s : String)
  | successMsg (ticker : PyStr)
  | warningMsg (s : String)
  | chart (c : ChartSpec)
  | dataframePreview
  | writeEps (v : Option Int)
deriving DecidableEq, Repr

/-- stock_app.py line 120. -/
def promptMsg : String := "종목명(한글/영문) 또는 티커를 입력해 주세요."

/-- stock_app.py line 124. -/
def notFoundMsg : String :=
  "해당 이름으로 종목을 찾을 수 없습니다. (검색 API 응답 없음 또는 오타)"

/-- stock_app.py line 130. -/
def loadErrMsg : String :=
  "데이터를 불러오는 중 에러가 발생했습니다. 앱 로그를 확인하세요."

/-- stock_app.py line 136. -/
def noDataMsg : String := "가격 데이터를 불러올 수 없습니다."

/-- stock_app.py line 160. -/
def noEpsMsg : String :=
  "Forward EPS 데이터가 제공되지 않습니다 (없거나 API에서 가져오지 못함)."

/-- stock_app.py lines 138-171: the chart branch of the presenter, for a
non-empty price frame. `pd.Series(forward_eps, index=price_df.index)`
broadcasts the scalar EPS to a constant series over the price index
(line 148); it is drawn on `ax2 = ax1.twinx()` with the two legends
merged (lines 149-157). With EPS absent, the info note of line 160 is
emitted instead and the legend is the price legend alone. -/
def renderChart (df : DataFrame) (eps : Option Int) : List UIEvent :=
  let c : ChartSpec :=
    { priceX := df.index
      priceY := getCol df "Price"
      epsSeries := eps.map (fun v => (df.index, df.index.map (fun _ => v)))
      combinedLegend := eps.isSome }
  match eps with
  | some _ => [.chart c, .dataframePreview, .writeEps eps]
  | none => [.infoMsg noEpsMsg, .chart c, .dataframePreview, .writeEps eps]

/-- The external world the app talks to: the search API and the
market-data APIs. -/
structure Env where
  searchApi : PyStr → Except String SearchRes
  world : PyStr → TickerData

/-- Embedding of the presenter (stock_app.py lines 116-171), for a run
where the search was triggered: the list of UI events emitted for a
query. Line 119: a falsy (empty) query gets the input prompt. Lines
122-124: a failed resolution gets the error banner. Lines 127-133: a
raising fetch gets the error pair, and since `price_df` is then reset to
an empty frame, the empty-data warning of line 136 follows. Lines
135-171: otherwise an empty frame gets the warning, a non-empty one the
chart branch. -/
def present (env : Env) (query : PyStr) : List UIEvent :=
  if query = [] then
    [.infoMsg promptMsg]
  else
    match name_to_ticker env.searchApi query with
    | none => [.errorMsg notFoundMsg]
    | some tk =>
      UIEvent.successMsg tk ::
        match get_price_and_forward_eps env.world tk with
        | .error m => [.errorMsg loadErrMsg, .codeBlock m, .warningMsg noDataMsg]
        | .ok (df, eps) =>
          if df.isEmpty then [.warningMsg noDataMsg]
          else renderChart df eps

/-! ## Concrete fixtures (sample environments used to instantiate the
theorems on closed inputs) -/

/-- The codepoints of "AAPL". -/
def tickAAPL : PyStr := [65, 65, 80, 76]

/-- The codepoints of "aapl". -/
def tickaapl : PyStr := [97, 97, 112, 108]

/-- A small non-empty price frame as `t.history` returns one. -/
def sampleDF : DataFrame :=
  ⟨[⟨2024, 1, 15⟩, ⟨2024, 2, 15⟩], [("Close", [100, 110]), ("Open", [90, 95])]⟩

/-- A frame with rows on no dates: `df.empty` holds. -/
def emptyDF : DataFrame := ⟨[], [("Close", [])]⟩

/-- A ticker whose every API call succeeds. -/
def okTD : TickerData :=
  ⟨fun _ => .ok (some sampleDF), .ok (.dict (some 7)), .ok .other⟩

/-- A ticker whose every API call raises. -/
def errTD : TickerData :=
  ⟨fun _ => .error "boom", .error "info down", .error "sd down"⟩

/-- A ticker with an empty primary price answer. -/
def emptyTD : TickerData :=
  ⟨fun _ => .ok (some emptyDF), .ok .notDict, .ok .other⟩

/-- A ticker whose info lookup raises but whose summary-detail lookup
carries a forward EPS of 9 for AAPL. -/
def sdTD : TickerData :=
  ⟨fun _ => .ok (some sampleDF), .error "rate limit",
    .ok (.dict [(tickAAPL, [("forwardEps", 9)])])⟩

/-- A ticker whose info lookup succeeds but returns a dict with no
forwardEps entry (a null, not a raise), while the summary-detail lookup
carries a forward EPS of 9 for AAPL. -/
def nullInfoTD : TickerData :=
  ⟨fun _ => .ok (some sampleDF), .ok (.dict none),
    .ok (.dict [(tickAAPL, [("forwardEps", 9)])])⟩

/-- A search API that is down. -/
def downSearch : PyStr → Except String SearchRes := fun _ => .error "down"

/-- An environment where search is down but market data works. -/
def okEnv : Env := ⟨downSearch, fun _ => okTD⟩

/-- An environment where market data raises. -/
def errEnv : Env := ⟨downSearch, fun _ => errTD⟩

/-- An environment where the price data comes back empty. -/
def emptyEnv : Env := ⟨downSearch, fun _ => emptyTD⟩

/-! ## Claim theorems -/

/-- C8: for every input string that is empty or consists only of
whitespace, `name_to_ticker` returns `none` ("no ticker"). -/
theorem resolver_blank_input_none (api : PyStr → Except String SearchRes)
    (query : PyStr) (h : ∀ c ∈ query, isSpaceCode c = true) :
    name_to_ticker api query = none := by
  have hs : pyStrip query = [] := by
    have h1 : query.dropWhile isSpaceCode = [] :=
      List.dropWhile_eq_nil_iff.mpr h
    simp [pyStrip, h1]
  simp [name_to_ticker, hs]

/-- Witness for C8 at the whitespace-only input " \t" with the down
search API. -/
theorem resolver_blank_input_none_witness :
    name_to_ticker downSearch [32, 9] = none :=
  resolver_blank_input_none downSearch [32, 9] (by decide)

/-- C5: for every input whose trimmed form is non-empty, at most 5
characters, and purely alphanumeric, `name_to_ticker` returns the
trimmed input uppercased, whatever the search API would answer — so the
result does not depend on the search service. -/
theorem resolver_short_alnum_literal (api api2 : PyStr → Except String SearchRes)
    (query : PyStr) (h1 : pyStrip query ≠ [])
    (h2 : (pyStrip query).length ≤ 5) (h3 : pyIsAlnum (pyStrip query) = true) :
    name_to_ticker api query = some (pyUpper (pyStrip query)) ∧
      name_to_ticker api query = name_to_ticker api2 query := by
  constructor
  · simp [name_to_ticker, h1, h2, h3]
  · simp [name_to_ticker, h1, h2, h3]

/-- Witness for C5 at the input " aapl ": both a down and a nonsense
search API give back "AAPL". -/
theorem resolver_short_alnum_literal_witness :
    name_to_ticker downSearch [32, 97, 97, 112, 108, 32] = some tickAAPL ∧
      name_to_ticker downSearch [32, 97, 97, 112, 108, 32] =
        name_to_ticker (fun _ => .ok (.quotes [])) [32, 97, 97, 112, 108, 32] :=
  resolver_short_alnum_literal downSearch (fun _ => .ok (.quotes []))
    [32, 97, 97, 112, 108, 32] (by decide) (by decide) (by decide)

/-- C4: whenever the search path is actually taken (the trimmed query is
not the short-alphanumeric literal form) and the search call fails
upstream in any of the ways the code guards against — the call raises, a
non-dict response, no quotes list, an empty candidate list, a top
candidate without a usable symbol — `name_to_ticker` returns `none`; no
exception escapes (the embedding is a total function into `Option`). -/
theorem resolver_search_failure_none (api : PyStr → Except String SearchRes)
    (query : PyStr)
    (hfail : searchFailed (api (pyStrip query)) = true)
    (hns : ¬((pyStrip query).length ≤ 5 ∧ pyIsAlnum (pyStrip query) = true)) :
    name_to_ticker api query = none := by
  by_cases hq : pyStrip query = []
  · simp [name_to_ticker, hq]
  · rcases hr : api (pyStrip query) with e | r
    · simp [name_to_ticker, hq, hns, hr]
    · rcases r with _ | _ | cands
      · simp [name_to_ticker, hq, hns, hr]
      · simp [name_to_ticker, hq, hns, hr]
      · rcases cands with _ | ⟨c, cs⟩
        · simp [name_to_ticker, hq, hns, hr]
        · rcases c with _ | s
          · simp [name_to_ticker, hq, hns, hr]
          · rw [hr] at hfail
            simp [searchFailed] at hfail

/-- Witness for C4: the query "hello world" (not short-alnum: it has a
space) against a search API answering an empty candidate list. -/
theorem resolver_search_failure_none_witness :
    name_to_ticker (fun _ => .ok (.quotes []))
      [104, 101, 108, 108, 111, 32, 119, 111, 114, 108, 100] = none :=
  resolver_search_failure_none (fun _ => .ok (.quotes []))
    [104, 101, 108, 108, 111, 32, 119, 111, 114, 108, 100]
    (by decide) (by decide)

/-- Applying the ASCII uppercase map twice is the same as applying it
once: it sends 97..122 into 65..90, which it leaves alone. -/
theorem upCode_idem (c : Nat) : upCode (upCode c) = upCode c := by
  unfold upCode
  split
  · split
    · omega
    · rfl
  · rfl

/-- `pyUpper` is idempotent. -/
theorem pyUpper_idem (s : PyStr) : pyUpper (pyUpper s) = pyUpper s := by
  induction s with
  | nil => rfl
  | cons c cs ih =>
    simp only [pyUpper, List.map_cons, List.map_map] at ih ⊢
    exact List.cons_eq_cons.mpr ⟨upCode_idem c, ih⟩

/-- C10: `get_price_and_forward_eps` is case-insensitive in its ticker
argument — it uppercases the ticker (line 38) before consulting any API,
so a ticker and its uppercased form give the same result against the
same world. -/
theorem fetch_case_insensitive (world : PyStr → TickerData) (t : PyStr) :
    get_price_and_forward_eps world t =
      get_price_and_forward_eps world (pyUpper t) := by
  simp only [get_price_and_forward_eps, pyUpper_idem]

/-- The info lookup failed in the sense of the fallback guard at
stock_app.py line 78: after the first try block, `forward_eps` is still
`None`, whether the call raised, returned a non-dict, or returned a dict
with no forwardEps value. -/
def infoFailed : Except String InfoRes → Bool
  | .error _ => true
  | .ok .notDict => true
  | .ok (.dict none) => true
  | .ok (.dict (some _)) => false

/-- Any failed info lookup — raising or null-returning — leaves the
first attempt with no value. -/
theorem infoEps_eq_none_of_failed (td : TickerData)
    (h : infoFailed td.info = true) : infoEps td = none := by
  unfold infoEps
  rcases hi : td.info with e | r
  · rfl
  · rcases r with _ | f
    · rfl
    · rcases f with _ | v
      · rfl
      · rw [hi] at h
        simp [infoFailed] at h

/-- C2: the forward-EPS sources are tried in a fixed order.
(a) A non-null value from the `t.info` lookup wins, whatever the
summary-detail source holds. (b) Whenever the info lookup fails — it
raised, returned a non-dict, or returned a dict with no forwardEps
value — the result is exactly what the summary-detail lookup yields; in
particular (c) a value from the summary-detail lookup becomes the
result, and (d) if the summary-detail lookup also fails (raises, is
neither a dict nor get-able, or has no entry for the ticker), the
forward EPS is `None`. (e) No EPS failure ever raises out of
`get_price_and_forward_eps`: whenever the price part succeeds, the
function returns `.ok` no matter what the EPS sources did. -/
theorem forward_eps_ordered_fallback (td : TickerData) (tk : PyStr) :
    (∀ v sd2, td.info = .ok (.dict (some v)) →
       fetchForwardEps { td with summaryDetail := sd2 } tk = some v) ∧
    (infoFailed td.info = true → fetchForwardEps td tk = sdEps td tk) ∧
    (∀ v, infoFailed td.info = true → sdEps td tk = some v →
       fetchForwardEps td tk = some v) ∧
    (infoFailed td.info = true → sdEps td tk = none →
       fetchForwardEps td tk = none) ∧
    (∀ world t op df, selectPriceFrame (world (pyUpper t)) = .ok op →
       normalizePrice op = .ok df →
       get_price_and_forward_eps world t =
         .ok (toMonthEnd df, fetchForwardEps (world (pyUpper t)) (pyUpper t))) := by
  refine ⟨?_, ?_, ?_, ?_, ?_⟩
  · intro v sd2 h
    simp [fetchForwardEps, infoEps, h]
  · intro h
    simp [fetchForwardEps, infoEps_eq_none_of_failed td h]
  · intro v h hs
    simp [fetchForwardEps, infoEps_eq_none_of_failed td h, hs]
  · intro h hs
    simp [fetchForwardEps, infoEps_eq_none_of_failed td h, hs]
  · intro world t op df hsel hnorm
    simp only [get_price_and_forward_eps, hsel, hnorm]

/-- Witness for C2: at `nullInfoTD` the info lookup returned a dict with
no forwardEps value (a null, not a raise) and the summary-detail dict
carries 9 for AAPL, so the forward EPS is 9; at `sdTD` the info lookup
raised with the same summary-detail answer, also giving 9; and at
`errTD` both lookups raised, giving `None`. -/
theorem forward_eps_ordered_fallback_witness :
    fetchForwardEps nullInfoTD tickAAPL = some 9 ∧
      fetchForwardEps sdTD tickAAPL = some 9 ∧
      fetchForwardEps errTD tickAAPL = none :=
  ⟨(forward_eps_ordered_fallback nullInfoTD tickAAPL).2.2.1 9 rfl (by decide),
   (forward_eps_ordered_fallback sdTD tickAAPL).2.2.1 9 rfl (by decide),
   (forward_eps_ordered_fallback errTD tickAAPL).2.2.2.1 rfl rfl⟩

/-- Override every `period="max"` history answer of one ticker
environment, leaving the 5-year-window answers and both EPS sources
unchanged. -/
def overrideMax (td : TickerData) (x : Except String (Option DataFrame)) :
    TickerData :=
  { td with
      history := fun r =>
        match r with
        | .maxPeriod _ => x
        | .window5y i => td.history (.window5y i) }

/-- C3: the fallback policy of the price fetch.
(a) When the primary ~5-year request returns a non-empty frame, that
frame is the one used. (b) In that case the whole fetch result is
independent of what any `period="max"` request would answer — no
fallback is consulted. (c) When the primary request returns `None` or an
empty frame, the selected frame is exactly the answer of the
`period="max"` request at the same `"1mo"` interval. -/
theorem price_fallback_on_empty :
    (∀ td df, td.history (.window5y "1mo") = .ok (some df) →
       df.isEmpty = false → selectPriceFrame td = .ok (some df)) ∧
    (∀ world t df x,
       (world (pyUpper t)).history (.window5y "1mo") = .ok (some df) →
       df.isEmpty = false →
       get_price_and_forward_eps (fun s => overrideMax (world s) x) t =
         get_price_and_forward_eps world t) ∧
    (∀ td, (td.history (.window5y "1mo") = .ok none ∨
            ∃ df, td.history (.window5y "1mo") = .ok (some df) ∧
              df.isEmpty = true) →
       selectPriceFrame td = td.history (.maxPeriod "1mo")) := by
  refine ⟨?_, ?_, ?_⟩
  · intro td df h1 h2
    simp [selectPriceFrame, h1, h2]
  · intro world t df x h1 h2
    have hsel : selectPriceFrame (overrideMax (world (pyUpper t)) x) =
        .ok (some df) := by
      simp [selectPriceFrame, overrideMax, h1, h2]
    have hsel2 : selectPriceFrame (world (pyUpper t)) = .ok (some df) := by
      simp [selectPriceFrame, h1, h2]
    simp only [get_price_and_forward_eps, hsel, hsel2]
    rcases hn : normalizePrice (some df) with e | df2
    · rfl
    · simp [overrideMax, fetchForwardEps, infoEps, sdEps]
  · intro td h
    rcases h with h | ⟨df, h, he⟩
    · simp [selectPriceFrame, h]
    · simp [selectPriceFrame, h, he]

/-- Witness for C3 at `emptyTD`, whose primary answer is an empty frame:
the selected frame is the max-history answer. -/
theorem price_fallback_on_empty_witness :
    selectPriceFrame emptyTD = emptyTD.history (HistoryReq.maxPeriod "1mo") :=
  price_fallback_on_empty.2.2 emptyTD (Or.inr ⟨emptyDF, rfl, by decide⟩)

/-- In the overwrite branch of column assignment, the first column
matching the name now holds the assigned values. -/
theorem find?_map_replace (n : String) (v : List Int)
    (cs : List (String × List Int))
    (h : cs.any (fun p => p.1 == n) = true) :
    (cs.map (fun p => if p.1 == n then (n, v) else p)).find?
      (fun p => p.1 == n) = some (n, v) := by
  induction cs with
  | nil => simp at h
  | cons c cs ih =>
    rw [List.map_cons]
    by_cases hc : (c.1 == n) = true
    · rw [if_pos hc]
      exact List.find?_cons_of_pos _ (by simp)
    · have h2 : cs.any (fun p => p.1 == n) = true := by
        simp only [List.any_cons, hc, Bool.false_or] at h
        exact h
      rw [if_neg hc]
      have hstep := @List.find?_cons_of_neg _
        (fun q : String × List Int => q.1 == n) c
        (cs.map (fun p => if p.1 == n then (n, v) else p)) hc
      rw [hstep]
      exact ih h2

/-- After `df[n] = v`, looking up column `n` finds exactly `(n, v)`. -/
theorem find?_setColL (cs : List (String × List Int)) (n : String)
    (v : List Int) :
    (setColL cs n v).find? (fun p => p.1 == n) = some (n, v) := by
  unfold setColL
  by_cases h : cs.any (fun p => p.1 == n) = true
  · rw [if_pos h]
    exact find?_map_replace n v cs h
  · rw [if_neg h, List.find?_append]
    have hnone : cs.find? (fun p => p.1 == n) = none := by
      rw [List.find?_eq_none]
      intro p hp hb
      exact h (List.any_eq_true.mpr ⟨p, hp, hb⟩)
    simp [hnone, List.find?]

/-- After `df[n] = v`, reading column `n` gives `v`. -/
theorem getCol_setCol_self (df : DataFrame) (n : String) (v : List Int) :
    getCol (setCol df n v) n = v := by
  simp [getCol, setCol, find?_setColL]

/-- Overwriting an existing column does not change the column names. -/
theorem names_setColL_of_any (cs : List (String × List Int)) (n : String)
    (v : List Int) (h : cs.any (fun p => p.1 == n) = true) :
    (setColL cs n v).map Prod.fst = cs.map Prod.fst := by
  unfold setColL
  rw [if_pos h, List.map_map]
  refine List.map_congr_left ?_
  intro p _
  by_cases hp : p.1 = n
  · simp [hp]
  · simp [hp]

/-- Appending a fresh column appends its name. -/
theorem names_setColL_of_not_any (cs : List (String × List Int)) (n : String)
    (v : List Int) (h : ¬cs.any (fun p => p.1 == n) = true) :
    (setColL cs n v).map Prod.fst = cs.map Prod.fst ++ [n] := by
  unfold setColL
  rw [if_neg h]
  simp

/-- Column assignment leaves exactly one column with the assigned name,
provided the frame had no duplicate column names. -/
theorem count_names_setColL (cs : List (String × List Int)) (n : String)
    (v : List Int) (hnd : (cs.map Prod.fst).Nodup) :
    List.count n ((setColL cs n v).map Prod.fst) = 1 := by
  by_cases h : cs.any (fun p => p.1 == n) = true
  · rw [names_setColL_of_any cs n v h]
    rcases List.any_eq_true.mp h with ⟨p, hp, hb⟩
    exact List.count_eq_one_of_mem hnd
      (List.mem_map.mpr ⟨p, hp, eq_of_beq hb⟩)
  · rw [names_setColL_of_not_any cs n v h]
    have h0 : List.count n (cs.map Prod.fst) = 0 := by
      rw [List.count_eq_zero]
      intro hmem
      rcases List.mem_map.mp hmem with ⟨p, hp, hpe⟩
      exact h (List.any_eq_true.mpr ⟨p, hp, by simp [hpe]⟩)
    simp [List.count_append, h0]

/-- C1: every price frame that `get_price_and_forward_eps` returns has
its price data in exactly one column named "Price" (given a source frame
without duplicate column names), and that column carries the values of
whichever source field was present: "Close" if it existed, else
"Adj Close" if it existed, else the frame's first column. -/
theorem price_normalized_single_price_column
    (world : PyStr → TickerData) (t : PyStr) (df df0 : DataFrame)
    (eps : Option Int)
    (hsel : selectPriceFrame (world (pyUpper t)) = .ok (some df0))
    (hnd : (colNames df0).Nodup)
    (h : get_price_and_forward_eps world t = .ok (df, eps)) :
    List.count "Price" (colNames df) = 1 ∧
    ("Close" ∈ colNames df0 → getCol df "Price" = getCol df0 "Close") ∧
    ("Close" ∉ colNames df0 → "Adj Close" ∈ colNames df0 →
       getCol df "Price" = getCol df0 "Adj Close") ∧
    ("Close" ∉ colNames df0 → "Adj Close" ∉ colNames df0 →
       ∃ c cs, df0.cols = c :: cs ∧ getCol df "Price" = c.2) := by
  simp only [get_price_and_forward_eps, hsel] at h
  by_cases hc : "Close" ∈ colNames df0
  · have hn : normalizePrice (some df0) =
        .ok ⟨df0.index, [("Price", getCol df0 "Close")]⟩ := by
      simp [normalizePrice, hc]
    rw [hn] at h
    have hdf : toMonthEnd ⟨df0.index, [("Price", getCol df0 "Close")]⟩ = df :=
      congrArg Prod.fst (Except.ok.inj h)
    subst hdf
    refine ⟨by simp [colNames, toMonthEnd], fun _ => ?_,
      fun hn2 _ => absurd hc hn2, fun hn2 _ => absurd hc hn2⟩
    simp [getCol, toMonthEnd, List.find?]
  · by_cases ha : "Adj Close" ∈ colNames df0
    · have hn : normalizePrice (some df0) =
          .ok ⟨df0.index, [("Price", getCol df0 "Adj Close")]⟩ := by
        simp [normalizePrice, hc, ha]
      rw [hn] at h
      have hdf :
          toMonthEnd ⟨df0.index, [("Price", getCol df0 "Adj Close")]⟩ = df :=
        congrArg Prod.fst (Except.ok.inj h)
      subst hdf
      refine ⟨by simp [colNames, toMonthEnd], fun hcc => absurd hcc hc,
        fun _ _ => ?_, fun _ hn2 => absurd ha hn2⟩
      simp [getCol, toMonthEnd, List.find?]
    · rcases hcols : df0.cols with _ | ⟨c, cs⟩
      · have hn : normalizePrice (some df0) =
            .error "IndexError: single positional indexer is out-of-bounds" := by
          simp [normalizePrice, hc, ha, hcols]
        rw [hn] at h
        exact absurd h (by simp)
      · have hn : normalizePrice (some df0) = .ok (setCol df0 "Price" c.2) := by
          simp [normalizePrice, hc, ha, hcols]
        rw [hn] at h
        have hdf : toMonthEnd (setCol df0 "Price" c.2) = df :=
          congrArg Prod.fst (Except.ok.inj h)
        subst hdf
        refine ⟨?_, fun hcc => absurd hcc hc, fun _ hcc => absurd hcc ha,
          fun _ _ => ⟨c, cs, rfl, ?_⟩⟩
        · have he : colNames (toMonthEnd (setCol df0 "Price" c.2)) =
              (setColL df0.cols "Price" c.2).map Prod.fst := rfl
          rw [he]
          exact count_names_setColL df0.cols "Price" c.2 hnd
        · have he : getCol (toMonthEnd (setCol df0 "Price" c.2)) "Price" =
              getCol (setCol df0 "Price" c.2) "Price" := rfl
          rw [he, getCol_setCol_self]

/-- Witness for C1 at `okEnv` and the lowercase ticker "aapl": the
returned frame is the month-end stamped frame with the single "Price"
column holding the "Close" values. -/
theorem price_normalized_single_price_column_witness :
    List.count "Price"
      (colNames (toMonthEnd ⟨sampleDF.index, [("Price", [100, 110])]⟩)) = 1 :=
  (price_normalized_single_price_column (fun _ => okTD) tickaapl
    (toMonthEnd ⟨sampleDF.index, [("Price", [100, 110])]⟩) sampleDF (some 7)
    rfl (by decide) rfl).1

/-- A query the resolver turned into a ticker cannot have been the empty
string (the empty query short-circuits to `none`). -/
theorem query_ne_nil_of_resolved (api : PyStr → Except String SearchRes)
    (query tk : PyStr) (h : name_to_ticker api query = some tk) :
    query ≠ [] := by
  intro he
  subst he
  simp [name_to_ticker, pyStrip] at h

/-- C6: when the price retrieval fails unexpectedly,
`get_price_and_forward_eps` raises a `RuntimeError` wrapping the
original exception text (every error it returns is of the wrapped form),
and the presenter catches exactly that error: it shows the user-facing
error banner followed by a code block holding the raw error text (and,
since the price frame is then reset to an empty one, the no-data
warning). -/
theorem fetch_error_presented (env : Env) (query tk : PyStr) (m : String)
    (h1 : name_to_ticker env.searchApi query = some tk)
    (h2 : get_price_and_forward_eps env.world tk = .error m) :
    (∃ e, m = rtWrap e) ∧
      present env query =
        [.successMsg tk, .errorMsg loadErrMsg, .codeBlock m,
         .warningMsg noDataMsg] := by
  constructor
  · simp only [get_price_and_forward_eps] at h2
    rcases hs : selectPriceFrame (env.world (pyUpper tk)) with e | op
    · simp only [hs] at h2
      exact ⟨e, (Except.error.inj h2).symm⟩
    · simp only [hs] at h2
      rcases hn : normalizePrice op with e | df
      · simp only [hn] at h2
        exact ⟨e, (Except.error.inj h2).symm⟩
      · simp only [hn] at h2
        exact absurd h2 (by simp)
  · have hq := query_ne_nil_of_resolved _ _ _ h1
    simp [present, hq, h1, h2]

/-- Witness for C6: in `errEnv` the primary history call raises "boom",
so the fetch returns the wrapped error and the presenter shows it. -/
theorem fetch_error_presented_witness :
    (∃ e, rtWrap "boom" = rtWrap e) ∧
      present errEnv tickaapl =
        [.successMsg tickAAPL, .errorMsg loadErrMsg,
         .codeBlock (rtWrap "boom"), .warningMsg noDataMsg] :=
  fetch_error_presented errEnv tickaapl tickAAPL (rtWrap "boom") rfl rfl

/-- C7: an empty price answer produces the warning and no chart — and a
chart is emitted only for a fetch that returned a non-empty frame, whose
index is the chart's time axis. -/
theorem empty_price_no_chart (env : Env) (query : PyStr) :
    (∀ tk df eps, name_to_ticker env.searchApi query = some tk →
       get_price_and_forward_eps env.world tk = .ok (df, eps) →
       df.isEmpty = true →
       present env query = [.successMsg tk, .warningMsg noDataMsg]) ∧
    (∀ c, UIEvent.chart c ∈ present env query →
       ∃ tk df eps, name_to_ticker env.searchApi query = some tk ∧
         get_price_and_forward_eps env.world tk = .ok (df, eps) ∧
         df.isEmpty = false ∧ c.priceX = df.index) := by
  constructor
  · intro tk df eps h1 h2 he
    have hq := query_ne_nil_of_resolved _ _ _ h1
    simp [present, hq, h1, h2, he]
  · intro c hc
    unfold present at hc
    by_cases hq : query = []
    · rw [if_pos hq] at hc
      simp at hc
    · rw [if_neg hq] at hc
      rcases hr : name_to_ticker env.searchApi query with _ | tk
      · simp only [hr] at hc
        simp at hc
      · simp only [hr] at hc
        rcases hf : get_price_and_forward_eps env.world tk with m | ⟨df, eps⟩
        · simp only [hf] at hc
          simp at hc
        · simp only [hf] at hc
          by_cases he : df.isEmpty = true
          · rw [if_pos he] at hc
            simp at hc
          · rw [if_neg he] at hc
            refine ⟨tk, df, eps, rfl, hf, by simpa using he, ?_⟩
            rcases eps with _ | v
            · simp [renderChart] at hc
              rw [hc]
            · simp [renderChart] at hc
              rw [hc]

/-- Witness for C7: in `emptyEnv` the fetch succeeds with a frame on no
dates, and the presenter stops at the warning. -/
theorem empty_price_no_chart_witness :
    present emptyEnv tickAAPL = [.successMsg tickAAPL, .warningMsg noDataMsg] :=
  (empty_price_no_chart emptyEnv tickAAPL).1 tickAAPL
    ⟨[], [("Price", [])]⟩ none rfl rfl rfl

/-- The month-end stamped sample frame, as the fetcher returns it. -/
def monthlyDF : DataFrame :=
  ⟨[⟨2024, 1, 31⟩, ⟨2024, 2, 29⟩], [("Price", [100, 110])]⟩

/-- C9: with a forward EPS present and a non-empty price frame, the
presenter renders a second series that repeats the single EPS value at
every date of the price index (the same time axis), on the secondary
axis, with the two legends combined. -/
theorem eps_constant_series_chart (env : Env) (query tk : PyStr)
    (df : DataFrame) (v : Int)
    (h1 : name_to_ticker env.searchApi query = some tk)
    (h2 : get_price_and_forward_eps env.world tk = .ok (df, some v))
    (h3 : df.isEmpty = false) :
    present env query =
      [.successMsg tk,
       .chart { priceX := df.index, priceY := getCol df "Price",
                epsSeries := some (df.index, df.index.map (fun _ => v)),
                combinedLegend := true },
       .dataframePreview, .writeEps (some v)] := by
  have hq := query_ne_nil_of_resolved _ _ _ h1
  simp [present, hq, h1, h2, h3, renderChart]

/-- Witness for C9 at `okEnv` and the query "aapl": the EPS 7 is drawn
as the constant series [7, 7] over the two month-end dates. -/
theorem eps_constant_series_chart_witness :
    present okEnv tickaapl =
      [.successMsg tickAAPL,
       .chart { priceX := monthlyDF.index, priceY := getCol monthlyDF "Price",
                epsSeries := some (monthlyDF.index,
                  monthlyDF.index.map (fun _ => (7 : Int))),
                combinedLegend := true },
       .dataframePreview, .writeEps (some 7)] :=
  eps_constant_series_chart okEnv tickaapl tickAAPL monthlyDF 7 rfl rfl rfl

end StockApp
